import Mathlib

/-!
Verification of the threading and conversation-analysis subsystem of the
eml-reader repository (`src/eml_reader/thread_analyzer.py`), as a shallow
embedding in Lean 4.

Modelling conventions:
* A Python `str` is modelled as `List Char` (`PyStr`).  Python's `str.lower`
  and `str.strip` are modelled on the ASCII range (the analyzer only ever
  compares against ASCII literals).
* Python truthiness of optional values is modelled explicitly:
  `None` and `""` are falsy for strings, `None` and `0` for timestamps,
  `[]` for lists.
* `datetime` values are modelled as integers (`Int`); `datetime.now()` is
  modelled by passing the current wall-clock value explicitly into the
  state-changing operation.
* `hashlib.md5(...).hexdigest()` is embedded as a full executable MD5
  implementation over byte lists (`md5Hex`), validated below against the
  standard test vectors.
* Python `dict`s keyed by thread id are modelled as association lists with
  in-place update (insertion order preserved, as in CPython).
* Python `set`s of strings are modelled as duplicate-free lists in
  first-insertion order; only membership, size and union are ever used.
-/

set_option maxRecDepth 100000

/-- A Python string, modelled as its list of characters. -/
abbrev PyStr := List Char

/-- Python truthiness of an optional string (`None` and `""` are falsy). -/
def truthyStr (o : Option PyStr) : Bool :=
  match o with
  | none => false
  | some s => !s.isEmpty

/-- Python truthiness of an optional numeric timestamp (`None` and `0` are falsy). -/
def truthyTs (o : Option Int) : Bool :=
  match o with
  | none => false
  | some v => v != 0

/-- ASCII lower-casing of one character, modelling `str.lower` on the ASCII range. -/
def lowerChar (c : Char) : Char :=
  if 'A' ≤ c ∧ c ≤ 'Z' then Char.ofNat (c.toNat + 32) else c

/-- Models `str.lower` (ASCII range). -/
def pyLower (s : PyStr) : PyStr := s.map lowerChar

/-- The characters stripped by Python `str.strip()` (ASCII whitespace). -/
def isPySpace (c : Char) : Bool :=
  c = ' ' ∨ c = '\t' ∨ c = '\n' ∨ c = '\r' ∨ c.toNat = 11 ∨ c.toNat = 12

/-- Models `str.strip()`: remove leading and trailing whitespace. -/
def pyStrip (s : PyStr) : PyStr :=
  ((s.dropWhile isPySpace).reverse.dropWhile isPySpace).reverse

/-- UTF-8 encoding of one character (byte values as `Nat`). -/
def utf8Char (c : Char) : List Nat :=
  let n := c.toNat
  if n < 0x80 then [n]
  else if n < 0x800 then
    [0xC0 ||| (n >>> 6), 0x80 ||| (n &&& 0x3F)]
  else if n < 0x10000 then
    [0xE0 ||| (n >>> 12), 0x80 ||| ((n >>> 6) &&& 0x3F), 0x80 ||| (n &&& 0x3F)]
  else
    [0xF0 ||| (n >>> 18), 0x80 ||| ((n >>> 12) &&& 0x3F),
     0x80 ||| ((n >>> 6) &&& 0x3F), 0x80 ||| (n &&& 0x3F)]

/-- Models `text.encode("utf-8")`: the UTF-8 byte sequence of a string. -/
def utf8Encode (s : PyStr) : List Nat := (s.map utf8Char).flatten

/-! ### MD5 (RFC 1321), executable over byte lists -/

/-- Truncate to a 32-bit word. -/
def w32 (n : Nat) : Nat := n &&& 0xFFFFFFFF

/-- Bitwise complement within 32 bits. -/
def w32not (n : Nat) : Nat := n ^^^ 0xFFFFFFFF

/-- 32-bit left rotation. -/
def wrot (x s : Nat) : Nat := w32 ((x <<< s) ||| (x >>> (32 - s)))

/-- MD5 round constants `K[i] = floor(abs(sin(i+1)) * 2^32)`. -/
def md5K : List Nat :=
  [0xd76aa478, 0xe8c7b756, 0x242070db, 0xc1bdceee,
   0xf57c0faf, 0x4787c62a, 0xa8304613, 0xfd469501,
   0x698098d8, 0x8b44f7af, 0xffff5bb1, 0x895cd7be,
   0x6b901122, 0xfd987193, 0xa679438e, 0x49b40821,
   0xf61e2562, 0xc040b340, 0x265e5a51, 0xe9b6c7aa,
   0xd62f105d, 0x02441453, 0xd8a1e681, 0xe7d3fbc8,
   0x21e1cde6, 0xc33707d6, 0xf4d50d87, 0x455a14ed,
   0xa9e3e905, 0xfcefa3f8, 0x676f02d9, 0x8d2a4c8a,
   0xfffa3942, 0x8771f681, 0x6d9d6122, 0xfde5380c,
   0xa4beea44, 0x4bdecfa9, 0xf6bb4b60, 0xbebfbc70,
   0x289b7ec6, 0xeaa127fa, 0xd4ef3085, 0x04881d05,
   0xd9d4d039, 0xe6db99e5, 0x1fa27cf8, 0xc4ac5665,
   0xf4292244, 0x432aff97, 0xab9423a7, 0xfc93a039,
   0x655b59c3, 0x8f0ccc92, 0xffeff47d, 0x85845dd1,
   0x6fa87e4f, 0xfe2ce6e0, 0xa3014314, 0x4e0811a1,
   0xf7537e82, 0xbd3af235, 0x2ad7d2bb, 0xeb86d391]

/-- MD5 per-round left-rotation amounts. -/
def md5S : List Nat :=
  [7, 12, 17, 22, 7, 12, 17, 22, 7, 12, 17, 22, 7, 12, 17, 22,
   5, 9, 14, 20, 5, 9, 14, 20, 5, 9, 14, 20, 5, 9, 14, 20,
   4, 11, 16, 23, 4, 11, 16, 23, 4, 11, 16, 23, 4, 11, 16, 23,
   6, 10, 15, 21, 6, 10, 15, 21, 6, 10, 15, 21, 6, 10, 15, 21]

/-- One MD5 round on the state `(a, b, c, d)` with message words `M`. -/
def md5Round (M : List Nat) (st : Nat × Nat × Nat × Nat) (i : Nat) :
    Nat × Nat × Nat × Nat :=
  let a := st.1
  let b := st.2.1
  let c := st.2.2.1
  let d := st.2.2.2
  let fg : Nat × Nat :=
    if i < 16 then ((b &&& c) ||| (w32not b &&& d), i)
    else if i < 32 then ((d &&& b) ||| (w32not d &&& c), (5 * i + 1) % 16)
    else if i < 48 then (b ^^^ c ^^^ d, (3 * i + 5) % 16)
    else (c ^^^ (b ||| w32not d), (7 * i) % 16)
  let f := w32 (fg.1 + a + md5K.getD i 0 + M.getD fg.2 0)
  (d, w32 (b + wrot f (md5S.getD i 0)), b, c)

/-- Process one 64-byte chunk, updating the running MD5 state. -/
def md5Chunk (st : Nat × Nat × Nat × Nat) (chunk : List Nat) :
    Nat × Nat × Nat × Nat :=
  let M := (List.range 16).map fun j =>
    chunk.getD (4 * j) 0 ||| (chunk.getD (4 * j + 1) 0 <<< 8) |||
    (chunk.getD (4 * j + 2) 0 <<< 16) ||| (chunk.getD (4 * j + 3) 0 <<< 24)
  let r := (List.range 64).foldl (md5Round M) st
  (w32 (st.1 + r.1), w32 (st.2.1 + r.2.1),
   w32 (st.2.2.1 + r.2.2.1), w32 (st.2.2.2 + r.2.2.2))

/-- MD5 padding: `0x80`, zeros to 56 mod 64, then the bit length in 8 LE bytes. -/
def md5Pad (msg : List Nat) : List Nat :=
  let z := (119 - msg.length % 64) % 64
  let bitlen := (msg.length * 8) % (2 ^ 64)
  msg ++ [0x80] ++ List.replicate z 0 ++
    (List.range 8).map (fun j => (bitlen >>> (8 * j)) &&& 0xFF)

/-- Split a byte list into 64-byte chunks (fuel-driven; fuel bounds the chunk count). -/
def chunks64 : Nat → List Nat → List (List Nat)
  | 0, _ => []
  | _, [] => []
  | fuel + 1, l => l.take 64 :: chunks64 fuel (l.drop 64)

/-- The 16-byte MD5 digest of a byte list. -/
def md5Bytes (msg : List Nat) : List Nat :=
  let padded := md5Pad msg
  let st := (chunks64 padded.length padded).foldl md5Chunk
    (0x67452301, 0xefcdab89, 0x98badcfe, 0x10325476)
  let le : Nat → List Nat := fun w => (List.range 4).map fun j => (w >>> (8 * j)) &&& 0xFF
  le st.1 ++ le st.2.1 ++ le st.2.2.1 ++ le st.2.2.2

/-- One lowercase hexadecimal digit. -/
def hexDigit (n : Nat) : Char :=
  if n < 10 then Char.ofNat (48 + n) else Char.ofNat (87 + n)

/-- Models `hashlib.md5(bytes).hexdigest()`: 32 lowercase hex characters. -/
def md5Hex (msg : List Nat) : PyStr :=
  ((md5Bytes msg).map fun b => [hexDigit (b >>> 4), hexDigit (b &&& 0xF)]).flatten

section Md5Vectors

example : md5Hex (utf8Encode ("".data)) = ("d41d8cd98f00b204e9800998ecf8427e".data) := by decide

example : md5Hex (utf8Encode ("abc".data)) = ("900150983cd24fb0d6963f7d28e17f72".data) := by decide

example :
    md5Hex (utf8Encode ("The quick brown fox jumps over the lazy dog".data)) =
      ("9e107d9d372bb6826bd81d3542a419d6".data) := by decide

example :
    md5Hex (utf8Encode (List.replicate 70 'a')) =
      ("0f5c6c4e740bfcc08c3c26ccb2673d46".data) := by decide

end Md5Vectors

/-! ### Data model (spec section 3): the analyzer's input record and derived views -/

/-- The per-message subject analysis (`_analyze_subject_thread` result).
Source dict keys: original, normalized, has_re_prefix, has_fw_prefix,
has_aw_prefix, prefix_count, is_thread_continuation. -/
structure SubjectThread where
  original : PyStr
  normalized : PyStr
  hasRe : Bool
  hasFw : Bool
  hasAw : Bool
  prefixCount : Nat
  is_thread_continuation : Bool
deriving DecidableEq

/-- The per-message engagement indicators (`_calculate_engagement_indicators` result). -/
structure EngagementIndicators where
  content_length : Nat
  recipient_count : Nat
  has_attachments : Bool
  has_html : Bool
  has_text : Bool
  engagement_score : Nat
deriving DecidableEq

/-- An attachment record; the analyzer only ever tests presence of attachments,
so only the filename field is carried. -/
structure Attachment where
  filename : PyStr
deriving DecidableEq

/-- The derived metadata of a parsed message (spec section 3): `message_id`,
`in_reply_to` (angle brackets stripped; possibly present-but-empty),
`references` (absent key modelled as `[]`), and `date_timestamp`
(seconds since epoch, numeric or absent; a failed Date parse yields absent). -/
structure EmlMetadata where
  message_id : Option PyStr
  in_reply_to : Option PyStr
  references : List PyStr
  date_timestamp : Option Int
deriving DecidableEq

/-- The common headers consumed by the analyzer (`headers["common"]`).
field names carry an `h` marker since `to`/`from` collide with Lean keywords; they model the dict keys "from", "to", "cc", "bcc", "subject". -/
structure CommonHeaders where
  hFrom : Option PyStr
  hTo : Option PyStr
  hCc : Option PyStr
  hBcc : Option PyStr
  hSubject : Option PyStr
deriving DecidableEq

/-- The body parts consumed by the analyzer (`body.get("text", "")` / `body.get("html", "")`). -/
structure EmlBody where
  text : Option PyStr
  html : Option PyStr
deriving DecidableEq

/-- Response-time record produced by `ThreadManager._calculate_response_time`. -/
structure ResponseTime where
  seconds : Int
  formatted : PyStr
  is_quick : Bool
  is_same_day : Bool
deriving DecidableEq

/-- The full threading analysis of one message (`analyze_thread` result). -/
structure ThreadAnalysis where
  thread_id : PyStr
  message_id : Option PyStr
  in_reply_to : Option PyStr
  references : List PyStr
  subject_thread : SubjectThread
  thread_depth : Nat
  is_reply : Bool
  is_forward : Bool
  is_root : Bool
  thread_participants : List PyStr
  thread_position : Nat
  response_time : Option ResponseTime
  engagement_indicators : EngagementIndicators
deriving DecidableEq

/-- One parsed EML record, as consumed by the analyzer and the thread manager.
`thread_analysis` is the analysis the processor attaches onto the record
(absent when the record has not passed through the full pipeline). -/
structure EmlData where
  headers : CommonHeaders
  body : EmlBody
  attachments : List Attachment
  metadata : EmlMetadata
  thread_analysis : Option ThreadAnalysis
deriving DecidableEq

/-! ### EmailThreadAnalyzer (source lines 33-363) -/

namespace EmailThreadAnalyzer

/-- `_hash_string`: `hashlib.md5(text.encode("utf-8")).hexdigest()[:12]`. -/
def hash_string (text : PyStr) : PyStr := (md5Hex (utf8Encode text)).take 12

/-- `_normalize_subject`: lower-case, strip, then one pass over the prefix
list `["re:", "fw:", "fwd:", "aw:", "fwd:", "fwd:"]`, stripping each listed
prefix at most once, in order, re-stripping whitespace after each removal. -/
def normalize_subject (subject : PyStr) : PyStr :=
  if subject.isEmpty then []
  else
    let prefs : List PyStr :=
      [("re:".data), ("fw:".data), ("fwd:".data), ("aw:".data), ("fwd:".data), ("fwd:".data)]
    prefs.foldl
      (fun normalized p =>
        if p.isPrefixOf normalized then pyStrip (normalized.drop p.length) else normalized)
      (pyStrip (pyLower subject))

/-- `_count_subject_prefixes`: one pass over `["re:", "fw:", "fwd:", "aw:"]`,
counting (and stripping) each listed prefix at most once, in order. -/
def count_subject_prefixes (subject : PyStr) : Nat :=
  if subject.isEmpty then 0
  else
    let prefs : List PyStr := [("re:".data), ("fw:".data), ("fwd:".data), ("aw:".data)]
    (prefs.foldl
      (fun acc p =>
        if p.isPrefixOf acc.2 then (acc.1 + 1, pyStrip (acc.2.drop p.length)) else acc)
      ((0 : Nat), pyStrip (pyLower subject))).1

/-- `_is_thread_continuation`: normalized subject starts with "re:" or "aw:". -/
def is_thread_continuation (subject : PyStr) : Bool :=
  if subject.isEmpty then false
  else
    let n := pyStrip (pyLower subject)
    ("re:".data).isPrefixOf n || ("aw:".data).isPrefixOf n

/-- `_detect_forward`: lowered-and-stripped subject starts with "fw:" or "fwd:". -/
def detect_forward (subject : PyStr) : Bool :=
  if subject.isEmpty then false
  else
    let n := pyStrip (pyLower subject)
    ("fw:".data).isPrefixOf n || ("fwd:".data).isPrefixOf n

/-- `_analyze_subject_thread`: the subject-line analysis dict.  Note the
has-prefix flags test `subject.lower()` without stripping. -/
def analyze_subject_thread (subject : PyStr) : SubjectThread :=
  { original := subject
    normalized := normalize_subject subject
    hasRe := ("re:".data).isPrefixOf (pyLower subject)
    hasFw := ("fw:".data).isPrefixOf (pyLower subject)
            || ("fwd:".data).isPrefixOf (pyLower subject)
    hasAw := ("aw:".data).isPrefixOf (pyLower subject)
    prefixCount := count_subject_prefixes subject
    is_thread_continuation := is_thread_continuation subject }

/-- `_calculate_thread_depth`: `min(len(references), 15)`. -/
def calculate_thread_depth (metadata : EmlMetadata) : Nat :=
  min metadata.references.length 15

/-- `_is_root_message`: neither In-Reply-To nor References is (truthily) present. -/
def is_root_message (metadata : EmlMetadata) : Bool :=
  !truthyStr metadata.in_reply_to && metadata.references.isEmpty

/-- Character class `[a-zA-Z0-9._%+-]` of the source's email regex. -/
def isEmailLocalChar (c : Char) : Bool :=
  c.isAlpha || c.isDigit || c = '.' || c = '_' || c = '%' || c = '+' || c = '-'

/-- Character class `[a-zA-Z0-9.-]` of the source's email regex. -/
def isEmailDomChar (c : Char) : Bool :=
  c.isAlpha || c.isDigit || c = '.' || c = '-'

/-- Length of the leading alphabetic run of a string. -/
def alphaRunLen (l : PyStr) : Nat := (l.takeWhile Char.isAlpha).length

/-- Backtracking step of the domain part of the regex
`[a-zA-Z0-9.-]+\.[a-zA-Z]{2,}`: inside the maximal domain-class run `D`,
try split points `j = k, k-1, ..., 1`; at each, require `D[j] = '.'`
followed by at least two alphabetic characters.  Returns the end offset of
the greedy match inside `D`, or `none`. -/
def domMatchEnd (D : PyStr) : Nat → Option Nat
  | 0 => none
  | k + 1 =>
    if D.getD (k + 1) '@' = '.' then
      let a := alphaRunLen (D.drop (k + 2))
      if 2 ≤ a then some (k + 2 + a) else domMatchEnd D k
    else domMatchEnd D k

/-- Attempt the email regex at the start of `l`; on success returns the
matched text and the remainder of the input after the match. -/
def tryEmailAt (l : PyStr) : Option (PyStr × PyStr) :=
  let L := l.takeWhile isEmailLocalChar
  if L.isEmpty then none
  else
    match l.drop L.length with
    | '@' :: r2 =>
      let D := r2.takeWhile isEmailDomChar
      match domMatchEnd D (D.length - 1) with
      | some e => some (L ++ '@' :: D.take e, r2.drop e)
      | none => none
    | _ => none

/-- Leftmost, non-overlapping scan of `re.findall` for the email pattern.
Fuel-driven recursion; fuel bounds the number of examined positions. -/
def findEmailsAux : Nat → PyStr → List PyStr
  | 0, _ => []
  | _, [] => []
  | fuel + 1, c :: cs =>
    if isEmailLocalChar c then
      match tryEmailAt (c :: cs) with
      | some (m, rest) => m :: findEmailsAux fuel rest
      | none => findEmailsAux fuel cs
    else findEmailsAux fuel cs

/-- Models `re.findall(r"[a-zA-Z0-9._%+-]+@[a-zA-Z0-9.-]+\.[a-zA-Z]{2,}", s)`. -/
def pyFindallEmail (s : PyStr) : List PyStr := findEmailsAux s.length s

/-- Models `list(set(l))`: duplicate-free, in first-occurrence order
(Python's set iteration order is unspecified; only size and membership
of this list are ever consumed). -/
def dedupFirst (l : List PyStr) : List PyStr :=
  l.foldl (fun acc x => if acc.contains x then acc else acc ++ [x]) []

/-- `_extract_email_addresses`: regex findall plus set-dedup. -/
def extract_email_addresses (header_value : PyStr) : List PyStr :=
  if header_value.isEmpty then []
  else dedupFirst (pyFindallEmail header_value)

/-- `_extract_thread_participants`: union of addresses over From/To/Cc/Bcc. -/
def extract_thread_participants (headers : CommonHeaders) : List PyStr :=
  [headers.hFrom, headers.hTo, headers.hCc, headers.hBcc].foldl
    (fun participants f =>
      if truthyStr f then
        (extract_email_addresses (f.getD [])).foldl
          (fun acc x => if acc.contains x then acc else acc ++ [x]) participants
      else participants)
    []

/-- `_calculate_thread_position`: always 1 for a single analyzed message. -/
def calculate_thread_position (_metadata : EmlMetadata) : Nat := 1

/-- `_calculate_simple_engagement_score`: three additive bands, clamped at 100. -/
def calculate_simple_engagement_score
    (content_length recipient_count : Nat) (has_attachments : Bool) : Nat :=
  let score : Nat :=
    if content_length > 1000 then 40
    else if content_length > 500 then 30
    else if content_length > 100 then 20
    else 10
  let score : Nat := score +
    (if recipient_count > 10 then 30
     else if recipient_count > 5 then 20
     else if recipient_count > 1 then 15
     else 10)
  let score : Nat := score + (if has_attachments then 30 else 0)
  min score 100

/-- `_calculate_engagement_indicators`: content length, per-field-deduplicated
recipient count over To/Cc/Bcc, attachment/format flags, and the score. -/
def calculate_engagement_indicators (eml : EmlData) : EngagementIndicators :=
  let text_content := eml.body.text.getD []
  let html_content := eml.body.html.getD []
  let total_content_length := text_content.length + html_content.length
  let recipient_count :=
    [eml.headers.hTo, eml.headers.hCc, eml.headers.hBcc].foldl
      (fun acc f =>
        if truthyStr f then acc + (extract_email_addresses (f.getD [])).length else acc)
      0
  let has_attachments := !eml.attachments.isEmpty
  { content_length := total_content_length
    recipient_count := recipient_count
    has_attachments := has_attachments
    has_html := !html_content.isEmpty
    has_text := !text_content.isEmpty
    engagement_score :=
      calculate_simple_engagement_score total_content_length recipient_count has_attachments }

/-- `_generate_thread_id`: priority chain In-Reply-To, references[0],
Message-ID, normalized subject; each hashed through `hash_string`. -/
def generate_thread_id (eml : EmlData) : PyStr :=
  if truthyStr eml.metadata.in_reply_to then
    ("thread_".data) ++ hash_string (eml.metadata.in_reply_to.getD [])
  else if !eml.metadata.references.isEmpty then
    ("thread_".data) ++ hash_string (eml.metadata.references.headD [])
  else if truthyStr eml.metadata.message_id then
    ("thread_".data) ++ hash_string (eml.metadata.message_id.getD [])
  else
    ("thread_".data) ++ hash_string (normalize_subject ((eml.headers.hSubject).getD []))

/-- `analyze_thread`: the full per-message threading analysis. -/
def analyze_thread (eml : EmlData) : ThreadAnalysis :=
  { thread_id := generate_thread_id eml
    message_id := eml.metadata.message_id
    in_reply_to := eml.metadata.in_reply_to
    references := eml.metadata.references
    subject_thread := analyze_subject_thread ((eml.headers.hSubject).getD [])
    thread_depth := calculate_thread_depth eml.metadata
    is_reply := truthyStr eml.metadata.in_reply_to
    is_forward := detect_forward ((eml.headers.hSubject).getD [])
    is_root := is_root_message eml.metadata
    thread_participants := extract_thread_participants eml.headers
    thread_position := calculate_thread_position eml.metadata
    response_time := none
    engagement_indicators := calculate_engagement_indicators eml }

end EmailThreadAnalyzer

section AnalyzerSanity

example :
    EmailThreadAnalyzer.normalize_subject ("Re: Re: Fw: Quarterly Report".data) =
      ("re: fw: quarterly report".data) := by decide

example :
    EmailThreadAnalyzer.count_subject_prefixes ("Re: Re: Fw: Quarterly Report".data) = 1 := by
  decide

example :
    EmailThreadAnalyzer.normalize_subject ("Re: Fw: hello".data) = ("hello".data) := by decide

example :
    EmailThreadAnalyzer.extract_email_addresses ("Ann <a@b.com>, c@d.com, e@f.com".data) =
      [("a@b.com".data), ("c@d.com".data), ("e@f.com".data)] := by decide

example :
    EmailThreadAnalyzer.extract_email_addresses ("x a@b.com.x9 y".data) =
      [("a@b.com".data)] := by decide

example :
    EmailThreadAnalyzer.hash_string ("hello".data) = ("5d41402abc4b".data) := by decide

end AnalyzerSanity

/-! ### ThreadManager (source lines 366-701) -/

/-- Association-list lookup, modelling Python `dict` access by thread id. -/
def alLookup {α : Type} (l : List (PyStr × α)) (k : PyStr) : Option α :=
  match l with
  | [] => none
  | (k', v) :: rest => if k' = k then some v else alLookup rest k

/-- Association-list update, modelling Python `dict` item assignment
(replace in place if present, else append; CPython preserves insertion order). -/
def alUpdate {α : Type} (l : List (PyStr × α)) (k : PyStr) (v : α) : List (PyStr × α) :=
  match l with
  | [] => [(k, v)]
  | (k', v') :: rest => if k' = k then (k, v) :: rest else (k', v') :: alUpdate rest k v

/-- One entry of a thread bucket: the record, its analysis, and the
ingestion wall-clock time (`added_at = datetime.now()`). -/
structure ThreadEntry where
  email_data : EmlData
  thread_analysis : ThreadAnalysis
  added_at : Int
deriving DecidableEq

/-- The aggregated metadata of one thread (`self.thread_metadata[tid]`). -/
structure ThreadMetadata where
  created : Int
  participants : List PyStr
  subject : PyStr
  message_count : Nat
  last_activity : Option Int
  root_message_id : Option PyStr
  max_depth : Nat
deriving DecidableEq

/-- The thread manager's whole mutable state: `self.threads` and
`self.thread_metadata`, both keyed by thread id. -/
structure ManagerState where
  threads : List (PyStr × List ThreadEntry)
  thread_metadata : List (PyStr × ThreadMetadata)
deriving DecidableEq

namespace ThreadManager

/-- The freshly constructed manager (`ThreadManager.__init__`). -/
def init : ManagerState := { threads := [], thread_metadata := [] }

/-- Python `set.update`: insert each new element not already present. -/
def setUnion (acc new : List PyStr) : List PyStr :=
  new.foldl (fun a x => if a.contains x then a else a ++ [x]) acc

/-- `_update_thread_metadata`: refresh message_count, union participants,
set last_activity to the current wall clock, take the max depth, and
overwrite root_message_id whenever the new message is classified root.
(The `none` branch models the impossible `KeyError`: every caller has
already created the metadata bucket.) -/
def update_thread_metadata (st : ManagerState) (now : Int) (tid : PyStr)
    (eml : EmlData) (ta : ThreadAnalysis) : ManagerState :=
  match alLookup st.thread_metadata tid with
  | none => st
  | some m =>
    let m := { m with message_count := ((alLookup st.threads tid).getD []).length }
    let m := { m with participants := setUnion m.participants ta.thread_participants }
    let m := { m with last_activity := some now }
    let m := { m with max_depth := max m.max_depth ta.thread_depth }
    let m := if ta.is_root then { m with root_message_id := eml.metadata.message_id } else m
    { st with thread_metadata := alUpdate st.thread_metadata tid m }

/-- `add_email_to_thread` (ingest): classify, create the bucket on first
contact, append the entry, update metadata; returns the thread id.
`now` stands for the two adjacent `datetime.now()` calls. -/
def add_email_to_thread (st : ManagerState) (now : Int) (eml : EmlData) :
    PyStr × ManagerState :=
  let ta := EmailThreadAnalyzer.analyze_thread eml
  let tid := ta.thread_id
  let st1 : ManagerState :=
    if (alLookup st.threads tid).isSome then st
    else
      { threads := alUpdate st.threads tid []
        thread_metadata := alUpdate st.thread_metadata tid
          { created := now
            participants := []
            subject := ta.subject_thread.normalized
            message_count := 0
            last_activity := none
            root_message_id := none
            max_depth := 0 } }
  let entry : ThreadEntry := { email_data := eml, thread_analysis := ta, added_at := now }
  let st2 : ManagerState :=
    { st1 with
      threads := alUpdate st1.threads tid (((alLookup st1.threads tid).getD []) ++ [entry]) }
  (tid, update_thread_metadata st2 now tid eml ta)

/-- Truncating division toward zero, modelling Python `int(a / b)` for a
positive integer divisor `b`. -/
def tdivZ (a : Int) (b : Nat) : Int :=
  if 0 ≤ a then ((a.toNat / b : Nat) : Int) else -(((-a).toNat / b : Nat) : Int)

/-- `_format_duration` on whole seconds: s / m / h / d with integer truncation. -/
def format_duration (seconds : Int) : PyStr :=
  if seconds < 60 then (toString seconds).data ++ ['s']
  else if seconds < 3600 then (toString (tdivZ seconds 60)).data ++ ['m']
  else if seconds < 86400 then (toString (tdivZ seconds 3600)).data ++ ['h']
  else (toString (tdivZ seconds 86400)).data ++ ['d']

/-- Truncation toward zero on rationals, modelling Python `int(...)` of a float. -/
def ratTrunc (q : ℚ) : Int := if 0 ≤ q then q.floor else q.ceil

/-- `_format_duration` applied to the (fractional) average response time. -/
def format_duration_q (q : ℚ) : PyStr :=
  if q < 60 then (toString (ratTrunc q)).data ++ ['s']
  else if q < 3600 then (toString (ratTrunc (q / 60))).data ++ ['m']
  else if q < 86400 then (toString (ratTrunc (q / 3600))).data ++ ['h']
  else (toString (ratTrunc (q / 86400))).data ++ ['d']

/-- The sort key of `get_thread_timeline`:
`x["email_data"].get("metadata", {}).get("date_timestamp", 0)`. -/
def tkey (e : ThreadEntry) : Int := (e.email_data.metadata.date_timestamp).getD 0

/-- Stable insertion of an entry after all entries with key `≤` its key. -/
def insertByDate (x : ThreadEntry) : List ThreadEntry → List ThreadEntry
  | [] => [x]
  | y :: ys => if tkey y ≤ tkey x then y :: insertByDate x ys else x :: y :: ys

/-- Models Python's stable `sorted(thread_emails, key=...)`. -/
def sortByDate (l : List ThreadEntry) : List ThreadEntry :=
  l.foldl (fun acc x => insertByDate x acc) []

/-- `_calculate_response_time`: delta to the previous entry of the given
list; absent at index 0 and whenever either timestamp is falsy
(`None` or `0`).  Out-of-range indices model the unreachable `IndexError`. -/
def calculate_response_time (sorted_emails : List ThreadEntry) (i : Nat) :
    Option ResponseTime :=
  if i = 0 then none
  else
    match sorted_emails[i]?, sorted_emails[i - 1]? with
    | some cur, some prev =>
      let cts := cur.email_data.metadata.date_timestamp
      let pts := prev.email_data.metadata.date_timestamp
      if !truthyTs cts || !truthyTs pts then none
      else
        let s := cts.getD 0 - pts.getD 0
        some
        { seconds := s
          formatted := format_duration s
          is_quick := decide (s < 3600)
          is_same_day := decide (s < 86400) }
    | _, _ => none

/-- One timeline entry as built by `get_thread_timeline`. -/
structure TimelineEntry where
  position : Nat
  is_root : Bool
  is_latest : Bool
  email_data : EmlData
  thread_analysis : ThreadAnalysis
  response_time : Option ResponseTime
deriving DecidableEq

/-- The timeline entry for sorted position `i` out of `n`, over sorted list `se`. -/
def mkTimelineEntry (se : List ThreadEntry) (n i : Nat) (e : ThreadEntry) :
    TimelineEntry :=
  { position := i + 1
    is_root := e.thread_analysis.is_root
    is_latest := decide (i = n - 1)
    email_data := e.email_data
    thread_analysis := e.thread_analysis
    response_time := if 0 < i then calculate_response_time se i else none }

/-- The enumeration loop of `get_thread_timeline`. -/
def timelineAux (se : List ThreadEntry) (n : Nat) :
    List ThreadEntry → Nat → List TimelineEntry
  | [], _ => []
  | e :: rest, i => mkTimelineEntry se n i e :: timelineAux se n rest (i + 1)

/-- `get_thread_timeline`: date-sorted timeline of a thread, `[]` if unknown. -/
def get_thread_timeline (st : ManagerState) (tid : PyStr) : List TimelineEntry :=
  match alLookup st.threads tid with
  | none => []
  | some thread_emails =>
    let se := sortByDate thread_emails
    timelineAux se se.length se 0

/-- `_calculate_activity_level`: tag from message count and average score. -/
def calculate_activity_level (message_count : Nat) (avg_engagement : ℚ) : PyStr :=
  if message_count ≥ 10 ∧ avg_engagement ≥ 70 then ("very_active".data)
  else if message_count ≥ 5 ∧ avg_engagement ≥ 50 then ("active".data)
  else if message_count ≥ 3 then ("moderate".data)
  else if message_count ≥ 1 then ("low".data)
  else ("inactive".data)

/-- The thread-level engagement rollup. -/
structure ThreadEngagement where
  avg_engagement_score : ℚ
  total_messages : Nat
  avg_response_time : Option PyStr
  activity_level : PyStr
deriving DecidableEq

/-- The per-entry score consumed by the rollup: read off the analysis the
processor attached onto the record itself (0 when absent). -/
def entryScore (e : ThreadEntry) : Nat :=
  match e.email_data.thread_analysis with
  | some ta => ta.engagement_indicators.engagement_score
  | none => 0

/-- `_calculate_thread_engagement`: average score, average response time over
the insertion-ordered entries, and the activity tag.  Python applies
`round(x, 2)` to the displayed average; the value is kept exact here. -/
def calculate_thread_engagement (thread_emails : List ThreadEntry) : ThreadEngagement :=
  if thread_emails.isEmpty then
    { avg_engagement_score := 0
      total_messages := 0
      avg_response_time := none
      activity_level := ("inactive".data) }
  else
    let total_score : Nat := (thread_emails.map entryScore).sum
    let response_times : List Int :=
      (List.range thread_emails.length).filterMap fun i =>
        if 0 < i then (calculate_response_time thread_emails i).map (fun rt => rt.seconds)
        else none
    let avg_engagement : ℚ := (total_score : ℚ) / (thread_emails.length : ℚ)
    let avg_rt : Option ℚ :=
      if response_times.isEmpty then none
      else some ((response_times.sum : ℚ) / (response_times.length : ℚ))
    { avg_engagement_score := avg_engagement
      total_messages := thread_emails.length
      avg_response_time :=
        match avg_rt with
        | some q => if q = 0 then none else some (format_duration_q q)
        | none => none
      activity_level := calculate_activity_level thread_emails.length avg_engagement }

/-- The summary view of one thread. `created`/`last_activity` keep the
integer clock values (`isoformat()` presentation is not modelled). -/
structure ThreadSummary where
  thread_id : PyStr
  message_count : Nat
  participants : List PyStr
  subject : PyStr
  created : Int
  last_activity : Option Int
  max_depth : Nat
  root_message_id : Option PyStr
  engagement : ThreadEngagement
deriving DecidableEq

/-- `get_thread_summary`: `None` for an unknown id or an empty bucket, else
the aggregated summary.  (A bucket without metadata would be a `KeyError`
in Python; it is unreachable through `add_email_to_thread` and modelled
as `None`.) -/
def get_thread_summary (st : ManagerState) (tid : PyStr) : Option ThreadSummary :=
  match alLookup st.threads tid, alLookup st.thread_metadata tid with
  | some thread_emails, some m =>
    if thread_emails.isEmpty then none
    else some
      { thread_id := tid
        message_count := m.message_count
        participants := m.participants
        subject := m.subject
        created := m.created
        last_activity := m.last_activity
        max_depth := m.max_depth
        root_message_id := m.root_message_id
        engagement := calculate_thread_engagement thread_emails }
  | _, _ => none

end ThreadManager

/-! ### General lemmas about the embedded operations -/

theorem alLookup_alUpdate_self {α : Type} (l : List (PyStr × α)) (k : PyStr) (v : α) :
    alLookup (alUpdate l k v) k = some v := by
  induction l with
  | nil => simp [alUpdate, alLookup]
  | cons hd t ih =>
    obtain ⟨k', v'⟩ := hd
    by_cases hk : k' = k
    · simp [alUpdate, alLookup, hk]
    · simp [alUpdate, alLookup, hk, ih]

theorem alLookup_alUpdate_ne {α : Type} (l : List (PyStr × α)) (k k' : PyStr) (v : α)
    (h : k' ≠ k) : alLookup (alUpdate l k v) k' = alLookup l k' := by
  induction l with
  | nil =>
    simp only [alUpdate, alLookup]
    rw [if_neg (fun hh => h hh.symm)]
  | cons hd t ih =>
    obtain ⟨k'', v''⟩ := hd
    by_cases hk : k'' = k
    · subst hk
      simp only [alUpdate, if_pos rfl, alLookup]
      rw [if_neg (fun hh => h hh.symm), if_neg (fun hh => h hh.symm)]
    · simp only [alUpdate, if_neg hk, alLookup, ih]

theorem alLookup_isSome_iff {α : Type} (l : List (PyStr × α)) (k : PyStr) :
    (alLookup l k).isSome = true ↔ k ∈ l.map Prod.fst := by
  induction l with
  | nil => simp [alLookup]
  | cons hd t ih =>
    obtain ⟨k', v'⟩ := hd
    by_cases hk : k' = k
    · subst hk
      simp only [alLookup, if_pos rfl, List.map_cons, List.mem_cons]
      exact ⟨fun _ => Or.inl (by trivial), fun _ => rfl⟩
    · simp only [alLookup, if_neg hk, List.map_cons, List.mem_cons, ih]
      constructor
      · intro hh; exact Or.inr hh
      · intro hh
        rcases hh with hh | hh
        · exact absurd hh.symm (fun hq => hk hq)
        · exact hh

namespace ThreadManager

theorem mem_insertByDate {x y : ThreadEntry} {l : List ThreadEntry} :
    y ∈ insertByDate x l ↔ y = x ∨ y ∈ l := by
  induction l with
  | nil => simp [insertByDate]
  | cons a t ih =>
    by_cases hle : tkey a ≤ tkey x
    · rw [insertByDate, if_pos hle]
      simp only [List.mem_cons, ih]
      tauto
    · rw [insertByDate, if_neg hle]
      simp only [List.mem_cons]

theorem pairwise_insertByDate (x : ThreadEntry) (l : List ThreadEntry)
    (h : l.Pairwise fun a b => tkey a ≤ tkey b) :
    (insertByDate x l).Pairwise fun a b => tkey a ≤ tkey b := by
  induction l with
  | nil => simp [insertByDate]
  | cons a t ih =>
    rcases List.pairwise_cons.mp h with ⟨ha, ht⟩
    by_cases hle : tkey a ≤ tkey x
    · rw [insertByDate, if_pos hle]
      refine List.pairwise_cons.mpr ⟨?_, ih ht⟩
      intro b hb
      rcases mem_insertByDate.mp hb with hb | hb
      · exact hb ▸ hle
      · exact ha b hb
    · rw [insertByDate, if_neg hle]
      refine List.pairwise_cons.mpr ⟨?_, h⟩
      intro b hb
      have hxa : tkey x ≤ tkey a := le_of_lt (not_le.mp hle)
      rcases List.mem_cons.mp hb with hb | hb
      · exact hb ▸ hxa
      · exact le_trans hxa (ha b hb)

theorem sorted_sortByDate (l : List ThreadEntry) :
    (sortByDate l).Pairwise fun a b => tkey a ≤ tkey b := by
  suffices h : ∀ acc : List ThreadEntry, (acc.Pairwise fun a b => tkey a ≤ tkey b) →
      ((l.foldl (fun acc x => insertByDate x acc) acc).Pairwise fun a b => tkey a ≤ tkey b) by
    exact h [] (by simp)
  induction l with
  | nil => intro acc hacc; exact hacc
  | cons a t ih =>
    intro acc hacc
    exact ih _ (pairwise_insertByDate a acc hacc)

theorem timelineAux_length (se : List ThreadEntry) (n : Nat) (l : List ThreadEntry) (i : Nat) :
    (timelineAux se n l i).length = l.length := by
  induction l generalizing i with
  | nil => rfl
  | cons a t ih => simp [timelineAux, ih]

theorem timelineAux_getElem? (se : List ThreadEntry) (n : Nat) (l : List ThreadEntry)
    (i j : Nat) :
    (timelineAux se n l i)[j]? = (l[j]?).map (fun e => mkTimelineEntry se n (i + j) e) := by
  induction l generalizing i j with
  | nil => simp [timelineAux]
  | cons a t ih =>
    cases j with
    | zero => simp [timelineAux]
    | succ j' =>
      have harith : i + 1 + j' = i + (j' + 1) := by omega
      simp [timelineAux, ih, harith]

theorem timelineAux_map_position (se : List ThreadEntry) (n : Nat) (l : List ThreadEntry)
    (i : Nat) :
    (timelineAux se n l i).map (fun e => e.position) = List.range' (i + 1) l.length := by
  induction l generalizing i with
  | nil => simp [timelineAux]
  | cons a t ih => simp [timelineAux, mkTimelineEntry, ih, List.range'_succ]

theorem timelineAux_map_isLatest (se : List ThreadEntry) (n : Nat) (l : List ThreadEntry)
    (i : Nat) :
    (timelineAux se n l i).map (fun e => e.is_latest) =
      (List.range' i l.length).map (fun k => decide (k = n - 1)) := by
  induction l generalizing i with
  | nil => simp [timelineAux]
  | cons a t ih => simp [timelineAux, mkTimelineEntry, ih, List.range'_succ]

theorem timelineAux_map_email (se : List ThreadEntry) (n : Nat) (l : List ThreadEntry)
    (i : Nat) :
    (timelineAux se n l i).map (fun e => e.email_data) = l.map (fun e => e.email_data) := by
  induction l generalizing i with
  | nil => rfl
  | cons a t ih => simp [timelineAux, mkTimelineEntry, ih]

theorem timelineAux_is_root (se : List ThreadEntry) (n : Nat) :
    ∀ (l : List ThreadEntry) (i : Nat) (e : TimelineEntry),
      e ∈ timelineAux se n l i → e.is_root = e.thread_analysis.is_root := by
  intro l
  induction l with
  | nil => intro i e he; simp [timelineAux] at he
  | cons a t ih =>
    intro i e he
    rcases List.mem_cons.mp he with he | he
    · subst he; rfl
    · exact ih (i + 1) e he

end ThreadManager

/-! ### Claim-side specification definitions and concrete test fixtures -/

/-- Headers carrying only a subject, for fixture records. -/
def plainHeaders (subj : Option PyStr) : CommonHeaders :=
  { hFrom := none, hTo := none, hCc := none, hBcc := none, hSubject := subj }

/-- A minimal fixture record with the given subject, Message-ID, In-Reply-To,
references and date timestamp. -/
def plainRecord (subj mid irt : Option PyStr) (refs : List PyStr) (ts : Option Int) :
    EmlData :=
  { headers := plainHeaders subj
    body := { text := none, html := none }
    attachments := []
    metadata := { message_id := mid, in_reply_to := irt, references := refs, date_timestamp := ts }
    thread_analysis := none }

/-- Claim-side derivation key for the thread id (C1's wording): the
In-Reply-To value if present, else the first reference, else the
Message-ID if present, else the normalized subject. -/
def threadKeySpec (eml : EmlData) : PyStr :=
  if truthyStr eml.metadata.in_reply_to then eml.metadata.in_reply_to.getD []
  else if !eml.metadata.references.isEmpty then eml.metadata.references.headD []
  else if truthyStr eml.metadata.message_id then eml.metadata.message_id.getD []
  else EmailThreadAnalyzer.normalize_subject (eml.headers.hSubject.getD [])

/-- Strip a single leading occurrence of `p` (then re-trim), else no change. -/
def stripOnce (p s : PyStr) : PyStr :=
  if p.isPrefixOf s then pyStrip (s.drop p.length) else s

/-- Claim-side (amended) subject normalization: lower-case, trim, then a
single pass stripping each of re:, fw:, fwd:, aw:, fwd:, fwd: at most once,
in that fixed order. -/
def normalizeSubjectSpec (subject : PyStr) : PyStr :=
  if subject.isEmpty then []
  else
    stripOnce ("fwd:".data) (stripOnce ("fwd:".data) (stripOnce ("aw:".data)
      (stripOnce ("fwd:".data) (stripOnce ("fw:".data) (stripOnce ("re:".data)
        (pyStrip (pyLower subject)))))))

/-- Claim-side (amended) prefix counting: a single pass over
re:, fw:, fwd:, aw:, counting each at most once, in that fixed order. -/
def countSubjectPrefixesSpec (subject : PyStr) : Nat :=
  if subject.isEmpty then 0
  else
    let s0 := pyStrip (pyLower subject)
    let c1 : Nat × PyStr :=
      if ("re:".data).isPrefixOf s0 then (1, pyStrip (s0.drop 3)) else (0, s0)
    let c2 : Nat × PyStr :=
      if ("fw:".data).isPrefixOf c1.2 then (c1.1 + 1, pyStrip (c1.2.drop 3)) else c1
    let c3 : Nat × PyStr :=
      if ("fwd:".data).isPrefixOf c2.2 then (c2.1 + 1, pyStrip (c2.2.drop 4)) else c2
    let c4 : Nat × PyStr :=
      if ("aw:".data).isPrefixOf c3.2 then (c3.1 + 1, pyStrip (c3.2.drop 3)) else c3
    c4.1

/-- Claim-side content-length band of the engagement score. -/
def contentBand (n : Nat) : Nat :=
  if n > 1000 then 40 else if n > 500 then 30 else if n > 100 then 20 else 10

/-- Claim-side recipient-count band of the engagement score. -/
def recipientBand (n : Nat) : Nat :=
  if n > 10 then 30 else if n > 5 then 20 else if n > 1 then 15 else 10

/-- Claim-side response-time record from the two adjacent timestamps
(amended: both must be present and non-zero). -/
def responseTimeSpec (prev cur : Option Int) : Option ResponseTime :=
  if truthyTs prev && truthyTs cur then
    some
      { seconds := cur.getD 0 - prev.getD 0
        formatted := ThreadManager.format_duration (cur.getD 0 - prev.getD 0)
        is_quick := decide (cur.getD 0 - prev.getD 0 < 3600)
        is_same_day := decide (cur.getD 0 - prev.getD 0 < 86400) }
  else none

/-! ### C1: thread-id derivation -/

/-- C1: for every record the derived thread id is "thread_" followed by the
first 12 hex characters of the MD5 digest of the priority-selected key
(In-Reply-To if present, else references[0], else Message-ID if present,
else the normalized subject); consequently two records carrying the same
(present) In-Reply-To value derive the same thread id whatever their other
headers. -/
theorem C1_thread_id_md5 :
    (∀ eml : EmlData,
      EmailThreadAnalyzer.generate_thread_id eml =
        ("thread_".data) ++ (md5Hex (utf8Encode (threadKeySpec eml))).take 12) ∧
    (∀ e1 e2 : EmlData,
      truthyStr e1.metadata.in_reply_to = true →
      e1.metadata.in_reply_to = e2.metadata.in_reply_to →
      EmailThreadAnalyzer.generate_thread_id e1 = EmailThreadAnalyzer.generate_thread_id e2) := by
  constructor
  · intro eml
    unfold EmailThreadAnalyzer.generate_thread_id threadKeySpec EmailThreadAnalyzer.hash_string
    split_ifs <;> rfl
  · intro e1 e2 h1 h2
    unfold EmailThreadAnalyzer.generate_thread_id
    rw [h2] at h1
    simp only [h2]
    rw [if_pos h1, if_pos h1]

/-- Fixture: a reply to message `x` with subject Alpha and nothing else. -/
def c1recA : EmlData := plainRecord (some ("Alpha".data)) none (some ("x".data)) [] none

/-- Fixture: a reply to message `x` with different subject, Message-ID,
references and date. -/
def c1recB : EmlData :=
  plainRecord (some ("Beta".data)) (some ("m1".data)) (some ("x".data)) [("y".data)] (some 7)

/-- Witness for C1: two concrete records sharing In-Reply-To `x` but
differing in subject, Message-ID, references and date get equal thread ids. -/
theorem C1_thread_id_md5_witness :
    EmailThreadAnalyzer.generate_thread_id c1recA = EmailThreadAnalyzer.generate_thread_id c1recB :=
  C1_thread_id_md5.2 c1recA c1recB (by decide) rfl

/-! ### C2: subject normalization -/

/-- C2 counterexample: on "Re: Re: Fw: Quarterly Report" the source
normalization leaves "re: fw: quarterly report" (the second "re:" survives)
and counts exactly one prefix, refuting the claimed "quarterly report" / 3. -/
theorem C2_counterexample :
    EmailThreadAnalyzer.normalize_subject ("Re: Re: Fw: Quarterly Report".data) =
        ("re: fw: quarterly report".data) ∧
    EmailThreadAnalyzer.normalize_subject ("Re: Re: Fw: Quarterly Report".data) ≠
        ("quarterly report".data) ∧
    EmailThreadAnalyzer.count_subject_prefixes ("Re: Re: Fw: Quarterly Report".data) = 1 ∧
    EmailThreadAnalyzer.count_subject_prefixes ("Re: Re: Fw: Quarterly Report".data) ≠ 3 := by
  refine ⟨by decide, by decide, by decide, by decide⟩

/-- C2 (amended): normalization lower-cases, trims, and makes one pass over
the prefix list re:, fw:, fwd:, aw:, fwd:, fwd: stripping each at most once
in order; counting makes one pass over re:, fw:, fwd:, aw:.  Stacked equal
prefixes are not all removed: "Re: Re: Fw: Quarterly Report" normalizes to
"re: fw: quarterly report" with count 1, while distinct stacked prefixes
such as "Re: Fw: hello" do fully normalize. -/
theorem C2_single_pass_normalization :
    (∀ s : PyStr, EmailThreadAnalyzer.normalize_subject s = normalizeSubjectSpec s) ∧
    (∀ s : PyStr, EmailThreadAnalyzer.count_subject_prefixes s = countSubjectPrefixesSpec s) ∧
    EmailThreadAnalyzer.normalize_subject ("Re: Re: Fw: Quarterly Report".data) =
        ("re: fw: quarterly report".data) ∧
    EmailThreadAnalyzer.count_subject_prefixes ("Re: Re: Fw: Quarterly Report".data) = 1 ∧
    EmailThreadAnalyzer.normalize_subject ("Re: Fw: hello".data) = ("hello".data) := by
  refine ⟨?_, ?_, by decide, by decide, by decide⟩
  · intro s
    unfold EmailThreadAnalyzer.normalize_subject normalizeSubjectSpec stripOnce
    rfl
  · intro s
    unfold EmailThreadAnalyzer.count_subject_prefixes countSubjectPrefixesSpec
    rfl

/-! ### C8: engagement score -/

/-- Fixture: 1500 characters of text body, three distinct To recipients,
one attachment. -/
def c8rec : EmlData :=
  { headers :=
      { hFrom := some ("boss@corp.com".data)
        hTo := some ("a@b.com, c@d.com, e@f.com".data)
        hCc := none
        hBcc := none
        hSubject := some ("Numbers".data) }
    body := { text := some (List.replicate 1500 'a'), html := none }
    attachments := [{ filename := ("report.pdf".data) }]
    metadata := { message_id := some ("m-c8".data), in_reply_to := none,
                  references := [], date_timestamp := some 1000 }
    thread_analysis := none }

/-- C8: the engagement score is the sum of the content-length band
(40/30/20/10), the recipient-count band (30/20/15/10) and a flat 30 for
attachments, clamped at 100; the fixture with 1500 body characters, three
recipients and an attachment scores 40 + 15 + 30 = 85. -/
theorem C8_engagement_score_bands :
    (∀ (cl rc : Nat) (ha : Bool),
      EmailThreadAnalyzer.calculate_simple_engagement_score cl rc ha =
        min (contentBand cl + recipientBand rc + (if ha then 30 else 0)) 100) ∧
    (EmailThreadAnalyzer.calculate_engagement_indicators c8rec).content_length = 1500 ∧
    (EmailThreadAnalyzer.calculate_engagement_indicators c8rec).recipient_count = 3 ∧
    (EmailThreadAnalyzer.calculate_engagement_indicators c8rec).has_attachments = true ∧
    (EmailThreadAnalyzer.calculate_engagement_indicators c8rec).engagement_score = 85 := by
  refine ⟨fun cl rc ha => rfl, by decide, by decide, by decide, by decide⟩

/-! ### Timeline lemmas and fixtures (C3, C4, C7) -/

namespace ThreadManager

theorem get_thread_timeline_none (st : ManagerState) (tid : PyStr)
    (h : alLookup st.threads tid = none) : get_thread_timeline st tid = [] := by
  unfold get_thread_timeline
  rw [h]

theorem get_thread_timeline_some (st : ManagerState) (tid : PyStr) (l : List ThreadEntry)
    (h : alLookup st.threads tid = some l) :
    get_thread_timeline st tid =
      timelineAux (sortByDate l) (sortByDate l).length (sortByDate l) 0 := by
  unfold get_thread_timeline
  rw [h]

end ThreadManager

/-- Fixture: a reply to message id `parent`, dated at the given epoch second. -/
def repRec (ts : Option Int) : EmlData := plainRecord none none (some ("parent".data)) [] ts

/-- Fixture registry: three replies to `parent` dated 100, 300, 250,
ingested in that order at clock ticks 0, 1, 2. -/
def c3state : ManagerState :=
  (ThreadManager.add_email_to_thread
    ((ThreadManager.add_email_to_thread
      ((ThreadManager.add_email_to_thread ThreadManager.init 0 (repRec (some 100))).2)
      1 (repRec (some 300))).2)
    2 (repRec (some 250))).2

/-- The thread id shared by the three fixture replies. -/
def c3tid : PyStr := (ThreadManager.add_email_to_thread ThreadManager.init 0 (repRec (some 100))).1

/-- C3: every timeline is sorted ascending by date_timestamp (absent
timestamps count as 0), positions are 1-based in sort order, is_latest marks
exactly the last sorted index; the fixture thread dated [100, 300, 250]
sorts to [100, 250, 300] with response_time 150 seconds ("2m") between the
first two sorted entries. -/
theorem C3_timeline_sorted :
    (∀ (st : ManagerState) (tid : PyStr),
      (ThreadManager.get_thread_timeline st tid).Pairwise fun a b =>
        (a.email_data.metadata.date_timestamp).getD 0 ≤
          (b.email_data.metadata.date_timestamp).getD 0) ∧
    (∀ (st : ManagerState) (tid : PyStr),
      (ThreadManager.get_thread_timeline st tid).map (fun e => e.position) =
        List.range' 1 (ThreadManager.get_thread_timeline st tid).length) ∧
    (∀ (st : ManagerState) (tid : PyStr),
      (ThreadManager.get_thread_timeline st tid).map (fun e => e.is_latest) =
        (List.range (ThreadManager.get_thread_timeline st tid).length).map
          (fun k => decide (k = (ThreadManager.get_thread_timeline st tid).length - 1))) ∧
    ((ThreadManager.get_thread_timeline c3state c3tid).map
        (fun e => e.email_data.metadata.date_timestamp) = [some 100, some 250, some 300] ∧
      (ThreadManager.get_thread_timeline c3state c3tid).map (fun e => e.response_time) =
        [none,
         some { seconds := 150, formatted := ("2m".data), is_quick := true, is_same_day := true },
         some { seconds := 50, formatted := ("50s".data), is_quick := true, is_same_day := true }]) := by
  refine ⟨?_, ?_, ?_, by decide, by decide⟩
  · intro st tid
    cases h : alLookup st.threads tid with
    | none => rw [ThreadManager.get_thread_timeline_none st tid h]; simp
    | some l =>
      rw [ThreadManager.get_thread_timeline_some st tid l h]
      refine (List.pairwise_map
        (f := fun e : ThreadManager.TimelineEntry => e.email_data)
        (R := fun x y : EmlData =>
          (x.metadata.date_timestamp).getD 0 ≤ (y.metadata.date_timestamp).getD 0)).mp ?_
      rw [ThreadManager.timelineAux_map_email]
      exact List.pairwise_map.mpr (ThreadManager.sorted_sortByDate l)
  · intro st tid
    cases h : alLookup st.threads tid with
    | none => rw [ThreadManager.get_thread_timeline_none st tid h]; rfl
    | some l =>
      rw [ThreadManager.get_thread_timeline_some st tid l h,
        ThreadManager.timelineAux_map_position, ThreadManager.timelineAux_length]
  · intro st tid
    cases h : alLookup st.threads tid with
    | none => rw [ThreadManager.get_thread_timeline_none st tid h]; rfl
    | some l =>
      rw [ThreadManager.get_thread_timeline_some st tid l h,
        ThreadManager.timelineAux_map_isLatest, ThreadManager.timelineAux_length,
        ← List.range_eq_range']

/-! ### C4: the is_root flag of timeline entries -/

/-- Fixture: a root message (no In-Reply-To, no References, no Message-ID)
with subject `hello`, dated 100. -/
def c4rec1 : EmlData := plainRecord (some ("hello".data)) none none [] (some 100)

/-- Fixture: a second root message in the same subject-derived thread, dated 200. -/
def c4rec2 : EmlData := plainRecord (some ("hello".data)) none none [] (some 200)

/-- Fixture registry holding the two root messages in one thread. -/
def c4state : ManagerState :=
  (ThreadManager.add_email_to_thread
    ((ThreadManager.add_email_to_thread ThreadManager.init 0 c4rec1).2) 1 c4rec2).2

/-- The subject-derived thread id of the two fixture roots. -/
def c4tid : PyStr := (ThreadManager.add_email_to_thread ThreadManager.init 0 c4rec1).1

/-- C4 counterexample: both sorted entries of the fixture thread carry
is_root = true, so is_root is not confined to sort position 0. -/
theorem C4_counterexample :
    (ThreadManager.get_thread_timeline c4state c4tid).map (fun e => e.is_root) = [true, true] ∧
    (ThreadManager.get_thread_timeline c4state c4tid).length = 2 := by
  refine ⟨by decide, by decide⟩

/-- C4 (amended): a timeline entry's is_root flag is copied from the entry's
own classification (true exactly when the message has neither a truthy
In-Reply-To nor any References), independent of sort position; several
entries of one timeline may carry it. -/
theorem C4_is_root_from_classification :
    (∀ (st : ManagerState) (tid : PyStr) (e : ThreadManager.TimelineEntry),
      e ∈ ThreadManager.get_thread_timeline st tid → e.is_root = e.thread_analysis.is_root) ∧
    (∀ eml : EmlData,
      (EmailThreadAnalyzer.analyze_thread eml).is_root =
        (!truthyStr eml.metadata.in_reply_to && eml.metadata.references.isEmpty)) := by
  constructor
  · intro st tid e he
    cases h : alLookup st.threads tid with
    | none =>
      rw [ThreadManager.get_thread_timeline_none st tid h] at he
      exact absurd he (List.not_mem_nil e)
    | some l =>
      rw [ThreadManager.get_thread_timeline_some st tid l h] at he
      exact ThreadManager.timelineAux_is_root _ _ _ _ _ he
  · intro eml
    rfl

/-- Witness for C4 (amended): the second sorted entry of the fixture thread
has its is_root equal to its classification's is_root. -/
theorem C4_is_root_from_classification_witness :
    ((ThreadManager.get_thread_timeline c4state c4tid).get ⟨1, by decide⟩).is_root =
      ((ThreadManager.get_thread_timeline c4state c4tid).get
        ⟨1, by decide⟩).thread_analysis.is_root :=
  C4_is_root_from_classification.1 c4state c4tid _ (List.get_mem _ _ _)

/-! ### C7: response-time presence -/

/-- Fixture: a reply to `z` dated exactly at epoch second 0. -/
def c7rec1 : EmlData := plainRecord none none (some ("z".data)) [] (some 0)

/-- Fixture: a reply to `z` dated at epoch second 100. -/
def c7rec2 : EmlData := plainRecord none none (some ("z".data)) [] (some 100)

/-- Fixture registry with the two replies to `z`. -/
def c7state : ManagerState :=
  (ThreadManager.add_email_to_thread
    ((ThreadManager.add_email_to_thread ThreadManager.init 0 c7rec1).2) 1 c7rec2).2

/-- The thread id of the two fixture replies to `z`. -/
def c7tid : PyStr := (ThreadManager.add_email_to_thread ThreadManager.init 0 c7rec1).1

/-- C7 counterexample: both timestamps (0 and 100) are present, yet the
second entry's response_time is absent, because the zero timestamp is falsy
in Python; this refutes the claimed "present iff both present". -/
theorem C7_counterexample :
    (ThreadManager.get_thread_timeline c7state c7tid).map
        (fun e => e.email_data.metadata.date_timestamp) = [some 0, some 100] ∧
    (ThreadManager.get_thread_timeline c7state c7tid).map (fun e => e.response_time) =
      [none, none] := by
  refine ⟨by decide, by decide⟩

/-- C7 (amended): the entry at sort position 0 has no response_time; the
entry at position i > 0 has response_time exactly when both its own and the
previous entry's timestamps are present AND non-zero (Python truthiness),
in which case it is the delta with humanized format and the
is_quick / is_same_day flags. -/
theorem C7_response_time_truthiness :
    (∀ (st : ManagerState) (tid : PyStr) (e : ThreadManager.TimelineEntry),
      (ThreadManager.get_thread_timeline st tid)[0]? = some e → e.response_time = none) ∧
    (∀ (st : ManagerState) (tid : PyStr) (i : Nat) (e p : ThreadManager.TimelineEntry),
      (ThreadManager.get_thread_timeline st tid)[i]? = some e →
      (ThreadManager.get_thread_timeline st tid)[i - 1]? = some p →
      0 < i →
      e.response_time =
        responseTimeSpec p.email_data.metadata.date_timestamp
          e.email_data.metadata.date_timestamp) := by
  constructor
  · intro st tid e he
    cases h : alLookup st.threads tid with
    | none =>
      rw [ThreadManager.get_thread_timeline_none st tid h] at he
      exact Option.noConfusion he
    | some l =>
      rw [ThreadManager.get_thread_timeline_some st tid l h,
        ThreadManager.timelineAux_getElem?] at he
      cases hc : (ThreadManager.sortByDate l)[0]? with
      | none => rw [hc] at he; exact Option.noConfusion he
      | some cur =>
        rw [hc] at he
        simp only [Option.map_some', Option.some.injEq] at he
        subst he
        rfl
  · intro st tid i e p he hp hi
    cases h : alLookup st.threads tid with
    | none =>
      rw [ThreadManager.get_thread_timeline_none st tid h] at he
      exact Option.noConfusion he
    | some l =>
      rw [ThreadManager.get_thread_timeline_some st tid l h,
        ThreadManager.timelineAux_getElem?] at he hp
      cases hc : (ThreadManager.sortByDate l)[i]? with
      | none => rw [hc] at he; exact Option.noConfusion he
      | some cur =>
        cases hcp : (ThreadManager.sortByDate l)[i - 1]? with
        | none => rw [hcp] at hp; exact Option.noConfusion hp
        | some prev =>
          rw [hc] at he
          rw [hcp] at hp
          simp only [Option.map_some', Option.some.injEq] at he hp
          subst he
          subst hp
          show (ThreadManager.mkTimelineEntry _ _ (0 + i) cur).response_time = _
          unfold ThreadManager.mkTimelineEntry
          simp only [Nat.zero_add]
          rw [if_pos hi]
          unfold ThreadManager.calculate_response_time
          rw [if_neg (Nat.pos_iff_ne_zero.mp hi), hc, hcp]
          simp only
          unfold responseTimeSpec
          cases hct : truthyTs cur.email_data.metadata.date_timestamp with
          | false => simp [hct]
          | true =>
            cases hpt : truthyTs prev.email_data.metadata.date_timestamp with
            | false => simp [hct, hpt]
            | true => simp [hct, hpt]

/-- Witness for C7 (amended): at sorted index 1 of the three-message fixture
thread the stored response_time equals the claim-side value computed from
the two adjacent timestamps. -/
theorem C7_response_time_truthiness_witness :
    ((ThreadManager.get_thread_timeline c3state c3tid).get ⟨1, by decide⟩).response_time =
      responseTimeSpec
        (((ThreadManager.get_thread_timeline c3state c3tid).get
            ⟨0, by decide⟩).email_data.metadata.date_timestamp)
        (((ThreadManager.get_thread_timeline c3state c3tid).get
            ⟨1, by decide⟩).email_data.metadata.date_timestamp) :=
  C7_response_time_truthiness.2 c3state c3tid 1
    ((ThreadManager.get_thread_timeline c3state c3tid).get ⟨1, by decide⟩)
    ((ThreadManager.get_thread_timeline c3state c3tid).get ⟨0, by decide⟩)
    (by decide) (by decide) (by decide)

/-! ### Ingest-effect lemmas (C5, C6, C9, C10) -/

namespace ThreadManager

theorem update_thread_metadata_threads (st : ManagerState) (now : Int) (tid : PyStr)
    (eml : EmlData) (ta : ThreadAnalysis) :
    (update_thread_metadata st now tid eml ta).threads = st.threads := by
  unfold update_thread_metadata
  cases h : alLookup st.thread_metadata tid with
  | none => rfl
  | some m => rfl

theorem update_thread_metadata_meta_ne (st : ManagerState) (now : Int) (tid : PyStr)
    (eml : EmlData) (ta : ThreadAnalysis) (tid' : PyStr) (h : tid' ≠ tid) :
    alLookup (update_thread_metadata st now tid eml ta).thread_metadata tid' =
      alLookup st.thread_metadata tid' := by
  unfold update_thread_metadata
  cases hm : alLookup st.thread_metadata tid with
  | none => rfl
  | some m => exact alLookup_alUpdate_ne _ _ _ _ h

/-- Exact shape of `add_email_to_thread` when the thread bucket already
exists: append the entry and update the metadata in place. -/
theorem add_email_to_thread_eq_existing (st : ManagerState) (now : Int) (eml : EmlData)
    (l : List ThreadEntry)
    (hl : alLookup st.threads (EmailThreadAnalyzer.analyze_thread eml).thread_id = some l) :
    add_email_to_thread st now eml =
      ((EmailThreadAnalyzer.analyze_thread eml).thread_id,
        update_thread_metadata
          { st with
            threads := alUpdate st.threads (EmailThreadAnalyzer.analyze_thread eml).thread_id
              (l ++
                [{ email_data := eml
                   thread_analysis := EmailThreadAnalyzer.analyze_thread eml
                   added_at := now }]) }
          now (EmailThreadAnalyzer.analyze_thread eml).thread_id eml
          (EmailThreadAnalyzer.analyze_thread eml)) := by
  simp [add_email_to_thread, hl]

/-- Exact shape of `add_email_to_thread` on first contact with a thread id:
create both buckets, then append and update as usual. -/
theorem add_email_to_thread_eq_new (st : ManagerState) (now : Int) (eml : EmlData)
    (hl : alLookup st.threads (EmailThreadAnalyzer.analyze_thread eml).thread_id = none) :
    add_email_to_thread st now eml =
      ((EmailThreadAnalyzer.analyze_thread eml).thread_id,
        update_thread_metadata
          { threads :=
              alUpdate (alUpdate st.threads (EmailThreadAnalyzer.analyze_thread eml).thread_id [])
                (EmailThreadAnalyzer.analyze_thread eml).thread_id
                (((alLookup
                    (alUpdate st.threads (EmailThreadAnalyzer.analyze_thread eml).thread_id [])
                    (EmailThreadAnalyzer.analyze_thread eml).thread_id).getD []) ++
                  [{ email_data := eml
                     thread_analysis := EmailThreadAnalyzer.analyze_thread eml
                     added_at := now }])
            thread_metadata :=
              alUpdate st.thread_metadata (EmailThreadAnalyzer.analyze_thread eml).thread_id
                { created := now
                  participants := []
                  subject := (EmailThreadAnalyzer.analyze_thread eml).subject_thread.normalized
                  message_count := 0
                  last_activity := none
                  root_message_id := none
                  max_depth := 0 } }
          now (EmailThreadAnalyzer.analyze_thread eml).thread_id eml
          (EmailThreadAnalyzer.analyze_thread eml)) := by
  simp [add_email_to_thread, hl]

/-- Exact shape of `update_thread_metadata` when the metadata bucket exists. -/
theorem update_thread_metadata_eq_some (st : ManagerState) (now : Int) (tid : PyStr)
    (eml : EmlData) (ta : ThreadAnalysis) (m : ThreadMetadata)
    (hm : alLookup st.thread_metadata tid = some m) :
    update_thread_metadata st now tid eml ta =
      { st with
        thread_metadata := alUpdate st.thread_metadata tid
          (if ta.is_root then
            { created := m.created
              participants := setUnion m.participants ta.thread_participants
              subject := m.subject
              message_count := ((alLookup st.threads tid).getD []).length
              last_activity := some now
              root_message_id := eml.metadata.message_id
              max_depth := max m.max_depth ta.thread_depth }
          else
            { created := m.created
              participants := setUnion m.participants ta.thread_participants
              subject := m.subject
              message_count := ((alLookup st.threads tid).getD []).length
              last_activity := some now
              root_message_id := m.root_message_id
              max_depth := max m.max_depth ta.thread_depth }) } := by
  unfold update_thread_metadata
  rw [hm]

/-- The combined effect of one ingest on its own thread\'s two buckets, under
the key-set invariant tying `threads` to `thread_metadata`: the entry list
gains the new entry at its end, the metadata bucket exists, its
last_activity is the ingestion clock, and its root_message_id is overwritten
by the new record\'s Message-ID whenever the new record is classified root
(otherwise it keeps its previous value, `none` for a fresh thread). -/
theorem add_email_to_thread_lookups (st : ManagerState) (now : Int) (eml : EmlData)
    (hwf : st.threads.map Prod.fst = st.thread_metadata.map Prod.fst) :
    (∃ pre : List ThreadEntry,
      alLookup (add_email_to_thread st now eml).2.threads
          (add_email_to_thread st now eml).1 =
        some (pre ++
          [{ email_data := eml
             thread_analysis := EmailThreadAnalyzer.analyze_thread eml
             added_at := now }])) ∧
    (∃ m : ThreadMetadata,
      alLookup (add_email_to_thread st now eml).2.thread_metadata
          (add_email_to_thread st now eml).1 = some m ∧
      m.last_activity = some now ∧
      m.root_message_id =
        (if (EmailThreadAnalyzer.analyze_thread eml).is_root then eml.metadata.message_id
         else
           match alLookup st.thread_metadata (add_email_to_thread st now eml).1 with
           | some m0 => m0.root_message_id
           | none => none)) := by
  have hfst : (add_email_to_thread st now eml).1 =
      (EmailThreadAnalyzer.analyze_thread eml).thread_id := rfl
  rw [hfst]
  cases hl : alLookup st.threads (EmailThreadAnalyzer.analyze_thread eml).thread_id with
  | some l =>
    have hmetaSome : (alLookup st.thread_metadata
        (EmailThreadAnalyzer.analyze_thread eml).thread_id).isSome = true := by
      rw [alLookup_isSome_iff, ← hwf, ← alLookup_isSome_iff, hl]
      rfl
    obtain ⟨me, hme⟩ := Option.isSome_iff_exists.mp hmetaSome
    rw [add_email_to_thread_eq_existing st now eml l hl]
    rw [update_thread_metadata_eq_some _ now _ eml _ me (by exact hme)]
    constructor
    · exact ⟨l, alLookup_alUpdate_self _ _ _⟩
    · refine ⟨_, alLookup_alUpdate_self _ _ _, ?_, ?_⟩
      · cases hroot : (EmailThreadAnalyzer.analyze_thread eml).is_root <;> simp [hroot]
      · rw [hme]
        cases hroot : (EmailThreadAnalyzer.analyze_thread eml).is_root <;> simp [hroot]
  | none =>
    have hmetaNone : alLookup st.thread_metadata
        (EmailThreadAnalyzer.analyze_thread eml).thread_id = none := by
      cases hx : alLookup st.thread_metadata
          (EmailThreadAnalyzer.analyze_thread eml).thread_id with
      | none => rfl
      | some mx =>
        have h1 : (alLookup st.thread_metadata
            (EmailThreadAnalyzer.analyze_thread eml).thread_id).isSome = true := by
          rw [hx]; rfl
        rw [alLookup_isSome_iff, ← hwf, ← alLookup_isSome_iff, hl] at h1
        exact Bool.noConfusion h1
    rw [add_email_to_thread_eq_new st now eml hl]
    rw [alLookup_alUpdate_self st.threads (EmailThreadAnalyzer.analyze_thread eml).thread_id []]
    have hini :
        alLookup
          (alUpdate st.thread_metadata (EmailThreadAnalyzer.analyze_thread eml).thread_id
            { created := now
              participants := []
              subject := (EmailThreadAnalyzer.analyze_thread eml).subject_thread.normalized
              message_count := 0
              last_activity := none
              root_message_id := none
              max_depth := 0 })
          (EmailThreadAnalyzer.analyze_thread eml).thread_id =
        some
          { created := now
            participants := []
            subject := (EmailThreadAnalyzer.analyze_thread eml).subject_thread.normalized
            message_count := 0
            last_activity := none
            root_message_id := none
            max_depth := 0 } := alLookup_alUpdate_self _ _ _
    rw [update_thread_metadata_eq_some _ now _ eml _ _ (by exact hini)]
    constructor
    · exact ⟨[], alLookup_alUpdate_self _ _ _⟩
    · refine ⟨_, alLookup_alUpdate_self _ _ _, ?_, ?_⟩
      · cases hroot : (EmailThreadAnalyzer.analyze_thread eml).is_root <;> simp [hroot]
      · rw [hmetaNone]
        cases hroot : (EmailThreadAnalyzer.analyze_thread eml).is_root <;> simp [hroot]

end ThreadManager

/-! ### C5: root_message_id across ingestions -/

/-- Fixture: a root message in subject-thread `x` whose Message-ID header
stripped to the empty string (e.g. a literal `<>`). -/
def c5recA : EmlData := plainRecord (some ("x".data)) (some []) none [] none

/-- Fixture: a second root message in the same subject-thread, with no
Message-ID at all. -/
def c5recB : EmlData := plainRecord (some ("x".data)) none none [] none

/-- Registry after ingesting the first fixture root. -/
def c5st1 : ManagerState := (ThreadManager.add_email_to_thread ThreadManager.init 0 c5recA).2

/-- The subject-derived thread id shared by both fixture roots. -/
def c5tid : PyStr := (ThreadManager.add_email_to_thread ThreadManager.init 0 c5recA).1

/-- Registry after ingesting both fixture roots. -/
def c5st2 : ManagerState := (ThreadManager.add_email_to_thread c5st1 1 c5recB).2

/-- C5 counterexample: both fixture records are classified root and land in
the same thread; after the first ingest root_message_id is the empty string,
and the second root ingest changes it to absent — so root_message_id is not
set once, and does not stay the first-ingested root's Message-ID. -/
theorem C5_counterexample :
    (EmailThreadAnalyzer.analyze_thread c5recA).is_root = true ∧
    (EmailThreadAnalyzer.analyze_thread c5recB).is_root = true ∧
    (EmailThreadAnalyzer.analyze_thread c5recB).thread_id = c5tid ∧
    (alLookup c5st1.thread_metadata c5tid).map (fun m => m.root_message_id) =
      some (some []) ∧
    (alLookup c5st2.thread_metadata c5tid).map (fun m => m.root_message_id) =
      some none := by
  refine ⟨by decide, by decide, by decide, by decide, by decide⟩

/-- C5 (amended): every ingest whose record is classified root overwrites
the thread's root_message_id with that record's (possibly absent)
Message-ID; a non-root ingest leaves the previous value (absent for a
fresh thread). -/
theorem C5_root_message_id_overwritten (st : ManagerState) (now : Int) (eml : EmlData)
    (hwf : st.threads.map Prod.fst = st.thread_metadata.map Prod.fst) :
    (alLookup (ThreadManager.add_email_to_thread st now eml).2.thread_metadata
        (ThreadManager.add_email_to_thread st now eml).1).map (fun m => m.root_message_id) =
      some
        (if (EmailThreadAnalyzer.analyze_thread eml).is_root then eml.metadata.message_id
         else
           match alLookup st.thread_metadata
               (ThreadManager.add_email_to_thread st now eml).1 with
           | some m0 => m0.root_message_id
           | none => none) := by
  obtain ⟨-, ⟨m, hm, -, hroot⟩⟩ := ThreadManager.add_email_to_thread_lookups st now eml hwf
  rw [hm, Option.map_some', hroot]

/-- Witness for C5 (amended): ingesting the second fixture root overwrites
root_message_id to absent. -/
theorem C5_root_message_id_overwritten_witness :
    (alLookup (ThreadManager.add_email_to_thread c5st1 1 c5recB).2.thread_metadata
        (ThreadManager.add_email_to_thread c5st1 1 c5recB).1).map
      (fun m => m.root_message_id) = some none :=
  (C5_root_message_id_overwritten c5st1 1 c5recB (by decide)).trans (by decide)

/-! ### C6: last_activity -/

/-- Fixture: a message whose Date parsed to epoch second 100, ingested at
wall-clock 5000. -/
def c6rec : EmlData := plainRecord (some ("update".data)) (some ("m-c6".data)) none [] (some 100)

/-- Registry after ingesting the fixture at clock 5000. -/
def c6st : ManagerState := (ThreadManager.add_email_to_thread ThreadManager.init 5000 c6rec).2

/-- The fixture's thread id. -/
def c6tid : PyStr := (ThreadManager.add_email_to_thread ThreadManager.init 5000 c6rec).1

/-- C6 counterexample: the fixture's Date parsed fine (timestamp 100), yet
last_activity is the ingestion clock 5000, not the maximum parsed Date. -/
theorem C6_counterexample :
    c6rec.metadata.date_timestamp = some 100 ∧
    (alLookup c6st.thread_metadata c6tid).map (fun m => m.last_activity) =
      some (some 5000) ∧
    (alLookup c6st.thread_metadata c6tid).map (fun m => m.last_activity) ≠
      some (some 100) := by
  refine ⟨by decide, by decide, by decide⟩

/-- C6 (amended): after every ingest the thread's last_activity equals the
wall-clock time of that ingest (`datetime.now()`), regardless of any message
Date header. -/
theorem C6_last_activity_is_ingest_clock (st : ManagerState) (now : Int) (eml : EmlData)
    (hwf : st.threads.map Prod.fst = st.thread_metadata.map Prod.fst) :
    (alLookup (ThreadManager.add_email_to_thread st now eml).2.thread_metadata
        (ThreadManager.add_email_to_thread st now eml).1).map (fun m => m.last_activity) =
      some (some now) := by
  obtain ⟨-, ⟨m, hm, hla, -⟩⟩ := ThreadManager.add_email_to_thread_lookups st now eml hwf
  rw [hm, Option.map_some', hla]

/-- Witness for C6 (amended): the fixture ingested at clock 5000 has
last_activity 5000. -/
theorem C6_last_activity_is_ingest_clock_witness :
    (alLookup (ThreadManager.add_email_to_thread ThreadManager.init 5000 c6rec).2.thread_metadata
        (ThreadManager.add_email_to_thread ThreadManager.init 5000 c6rec).1).map
      (fun m => m.last_activity) = some (some 5000) :=
  C6_last_activity_is_ingest_clock ThreadManager.init 5000 c6rec rfl

/-! ### C9: summary round trip -/

/-- C9: get_thread_summary of the thread id just returned by an ingest is
never absent (under the key-set invariant between the two registry maps,
which holds for every reachable state). -/
theorem C9_summary_never_absent (st : ManagerState) (now : Int) (eml : EmlData)
    (hwf : st.threads.map Prod.fst = st.thread_metadata.map Prod.fst) :
    (ThreadManager.get_thread_summary (ThreadManager.add_email_to_thread st now eml).2
        (ThreadManager.add_email_to_thread st now eml).1).isSome = true := by
  obtain ⟨⟨pre, hthr⟩, ⟨m, hm, -, -⟩⟩ := ThreadManager.add_email_to_thread_lookups st now eml hwf
  unfold ThreadManager.get_thread_summary
  rw [hthr, hm]
  have hne : (pre ++
      [({ email_data := eml
          thread_analysis := EmailThreadAnalyzer.analyze_thread eml
          added_at := now } : ThreadEntry)]).isEmpty = false := by
    cases pre <;> rfl
  simp [hne]

/-- Fixture: an ordinary message for the round-trip witness. -/
def c9rec : EmlData := plainRecord (some ("ping".data)) (some ("m-c9".data)) none [] (some 42)

/-- Witness for C9: ingesting the fixture into the empty registry yields a
thread id whose summary is present. -/
theorem C9_summary_never_absent_witness :
    (ThreadManager.get_thread_summary
        (ThreadManager.add_email_to_thread ThreadManager.init 3 c9rec).2
        (ThreadManager.add_email_to_thread ThreadManager.init 3 c9rec).1).isSome = true :=
  C9_summary_never_absent ThreadManager.init 3 c9rec rfl

/-! ### C10: ingest frame property -/

/-- C10: an ingest touches only the buckets of its own derived thread id:
for every other id, both the entry list and the aggregated metadata are
unchanged. -/
theorem C10_ingest_frame (st : ManagerState) (now : Int) (eml : EmlData) (tid' : PyStr)
    (h : tid' ≠ (ThreadManager.add_email_to_thread st now eml).1) :
    alLookup (ThreadManager.add_email_to_thread st now eml).2.threads tid' =
      alLookup st.threads tid' ∧
    alLookup (ThreadManager.add_email_to_thread st now eml).2.thread_metadata tid' =
      alLookup st.thread_metadata tid' := by
  have hfst : (ThreadManager.add_email_to_thread st now eml).1 =
      (EmailThreadAnalyzer.analyze_thread eml).thread_id := rfl
  rw [hfst] at h
  cases hl : alLookup st.threads (EmailThreadAnalyzer.analyze_thread eml).thread_id with
  | some l =>
    rw [ThreadManager.add_email_to_thread_eq_existing st now eml l hl]
    dsimp only
    constructor
    · rw [ThreadManager.update_thread_metadata_threads]
      dsimp only
      exact alLookup_alUpdate_ne _ _ _ _ h
    · rw [ThreadManager.update_thread_metadata_meta_ne _ _ _ _ _ _ h]
  | none =>
    rw [ThreadManager.add_email_to_thread_eq_new st now eml hl]
    dsimp only
    constructor
    · rw [ThreadManager.update_thread_metadata_threads]
      dsimp only
      rw [alLookup_alUpdate_ne _ _ _ _ h]
      exact alLookup_alUpdate_ne _ _ _ _ h
    · rw [ThreadManager.update_thread_metadata_meta_ne _ _ _ _ _ _ h]
      dsimp only
      exact alLookup_alUpdate_ne _ _ _ _ h

/-- Fixture: first message of the frame witness, thread keyed by `m-a`. -/
def c10recA : EmlData := plainRecord (some ("first".data)) (some ("m-a".data)) none [] (some 10)

/-- Fixture: second message, thread keyed by `m-b` (a different thread). -/
def c10recB : EmlData := plainRecord (some ("second".data)) (some ("m-b".data)) none [] (some 20)

/-- Registry holding only the first fixture's thread. -/
def c10st : ManagerState := (ThreadManager.add_email_to_thread ThreadManager.init 0 c10recA).2

/-- The first fixture's thread id. -/
def c10tidA : PyStr := (ThreadManager.add_email_to_thread ThreadManager.init 0 c10recA).1

/-- Witness for C10: ingesting the second fixture leaves the first
fixture's thread buckets untouched. -/
theorem C10_ingest_frame_witness :
    alLookup (ThreadManager.add_email_to_thread c10st 1 c10recB).2.threads c10tidA =
      alLookup c10st.threads c10tidA ∧
    alLookup (ThreadManager.add_email_to_thread c10st 1 c10recB).2.thread_metadata c10tidA =
      alLookup c10st.thread_metadata c10tidA :=
  C10_ingest_frame c10st 1 c10recB c10tidA (by decide)
